import Mathlib

/-! # Verification of `src/Python/logger_wrapper.py`

A shallow embedding of the `LoggerWrapper` class: the attribute-lookup
semantics its `__getattr__` relies on, the constructor's effect on the
process-global loguru logger, and the configuration the two `add` calls
pass to the file and console sinks.  The parts of the underlying logging
capability that the repository only configures (severity dispatch, record
rendering, daily rotation, the compression sweep) are modelled from the
specification, each marked so in its doc comment. -/

namespace LoggerWrapper

/-- Result of evaluating a Python expression: a value, or a raised
`AttributeError` carrying the missing attribute's name. -/
inductive PyResult (α : Type) where
  | ok (a : α)
  | attributeError (missing : String)
  deriving DecidableEq

/-- Attributes defined on the class `LoggerWrapper` (lines 42–116 of the
source): the default-configuration class attributes, the two format
templates and the methods.  No `logs_dir` and no `app_name` is among them;
the class defines `DEFAULT_LOGS_DIR` and `DEFAULT_APP_NAME` instead. -/
def classAttrs : List String :=
  ["DEFAULT_APP_NAME", "DEFAULT_LOGS_DIR", "DEFAULT_LEVEL_FILE",
   "DEFAULT_LEVEL_CONSOLE", "DEFAULT_RETENTION", "DEFAULT_ROTATION",
   "DEFAULT_COMPRESSION_DELAY", "DEFAULT_ENQUEUE", "FILE_FORMAT",
   "CONSOLE_FORMAT", "__init__", "_ensure_logs_directory",
   "_configure_file_handler", "_configure_console_handler", "__getattr__"]

/-- Attributes of the wrapped loguru logger object.  Modelled from the
spec: the underlying logging capability exposes level-tagged emit
operations (debug/info/warning/error/critical) and configuration
operations (the source calls `add` and `remove`); loguru's further public
methods are listed for completeness.  It has no `logs_dir` and no
`app_name` attribute. -/
def loguruAttrs : List String :=
  ["add", "remove", "debug", "info", "warning", "error", "critical",
   "trace", "success", "exception", "log", "bind", "contextualize",
   "opt", "patch", "level", "disable", "enable", "configure", "catch",
   "complete", "parse"]

/-- Value yielded by an attribute access on a `LoggerWrapper` instance:
found on the instance or class itself, or delegated to the wrapped loguru
logger by `__getattr__`. -/
inductive AttrVal where
  | own (name : String)
  | delegated (name : String)
  deriving DecidableEq

/-- Python attribute lookup on a `LoggerWrapper` instance whose instance
dictionary holds `instanceAttrs`: normal lookup (instance, then class)
and, only when both miss, `__getattr__` (lines 114–116), which evaluates
`getattr(self.logger, name)` on the wrapped loguru logger; when that too
has no such attribute, an `AttributeError` is raised. -/
def getattrOn (instanceAttrs : List String) (name : String) : PyResult AttrVal :=
  if name ∈ instanceAttrs then .ok (.own name)
  else if name ∈ classAttrs then .ok (.own name)
  else if name ∈ loguruAttrs then .ok (.delegated name)
  else .attributeError name

/-- One handler (sink) registered on the process-global loguru logger. -/
structure Handler where
  sink : String
  level : String
  deriving DecidableEq

/-- State of the process-global loguru logger: its registered handlers. -/
structure LoguruState where
  handlers : List Handler
  deriving DecidableEq

/-- Line 45 of the source. -/
def DEFAULT_LEVEL_FILE : String := "DEBUG"

/-- Line 46 of the source. -/
def DEFAULT_LEVEL_CONSOLE : String := "INFO"

/-- Line 48 of the source. -/
def DEFAULT_RETENTION : String := "45 days"

/-- Line 49 of the source. -/
def DEFAULT_ROTATION : String := "00:00"

/-- Line 50 of the source. -/
def DEFAULT_COMPRESSION_DELAY : Nat := 7

/-- Line 51 of the source. -/
def DEFAULT_ENQUEUE : Bool := true

/-- Lines 53–58 of the source: the file sink's format template (the
braces of the loguru template written as characters). -/
def FILE_FORMAT : String :=
  "\x7btime:YYYY-MM-DD HH:mm:ss.SSS\x7d | \x7blevel: <8\x7d | \x7bname: <35\x7d | \x7bfunction: <20\x7d | \x7bline: >4\x7d | \x7bmessage\x7d"

/-- Lines 60–65 of the source: the console sink's format template. -/
def CONSOLE_FORMAT : String :=
  "<green>\x7btime:HH:mm:ss\x7d</green> | <level>\x7blevel: <8\x7d</level> | <cyan>\x7bname\x7d</cyan>:<cyan>\x7bfunction\x7d</cyan>:<cyan>\x7bline\x7d</cyan> - <level>\x7bmessage\x7d</level>"

/-- Keyword arguments of the `self.logger.add` call in
`_configure_file_handler` (lines 91–103), except the sink path (line 89),
kept separate because it embeds `self.app_name` and `self.logs_dir`. -/
structure FileSinkArgs where
  rotation : String
  retention : String
  compression : String
  compression_delay : Nat
  level : String
  encoding : String
  enqueue : Bool
  backtrace : Bool
  diagnose : Bool
  format : String
  deriving DecidableEq

/-- The file sink configuration the source passes (lines 91–103). -/
def fileSinkArgs : FileSinkArgs :=
  { rotation := DEFAULT_ROTATION
    retention := DEFAULT_RETENTION
    compression := "zip"
    compression_delay := DEFAULT_COMPRESSION_DELAY
    level := DEFAULT_LEVEL_FILE
    encoding := "utf-8"
    enqueue := DEFAULT_ENQUEUE
    backtrace := true
    diagnose := false
    format := FILE_FORMAT }

/-- Keyword arguments of the `self.logger.add` call in
`_configure_console_handler` (lines 105–112). -/
structure ConsoleSinkArgs where
  sink : String
  level : String
  colorize : Bool
  format : String
  deriving DecidableEq

/-- The console sink configuration the source passes (lines 105–112). -/
def consoleSinkArgs : ConsoleSinkArgs :=
  { sink := "sys.stderr"
    level := DEFAULT_LEVEL_CONSOLE
    colorize := true
    format := CONSOLE_FORMAT }

/-- The handler the file `add` call would register. -/
def fileHandler : Handler := { sink := "file", level := DEFAULT_LEVEL_FILE }

/-- The handler the console `add` call would register. -/
def consoleHandler : Handler := { sink := "sys.stderr", level := DEFAULT_LEVEL_CONSOLE }

/-- Lines 83–85: `_ensure_logs_directory` evaluates `self.logs_dir` and
would then call `mkdir(parents=True, exist_ok=True)` on it.  The attribute
lookup is evaluated first, so a miss raises before any directory is
touched. -/
def ensureLogsDirectory (instanceAttrs : List String) : PyResult Unit :=
  match getattrOn instanceAttrs "logs_dir" with
  | .ok _ => .ok ()
  | .attributeError n => .attributeError n

/-- Lines 87–103: `_configure_file_handler` evaluates `self.logs_dir` and
`self.app_name` to build the sink path (line 89) and then registers the
file handler. -/
def configureFileHandler (instanceAttrs : List String) (s : LoguruState) :
    PyResult Unit × LoguruState :=
  match getattrOn instanceAttrs "logs_dir" with
  | .attributeError n => (.attributeError n, s)
  | .ok _ =>
    match getattrOn instanceAttrs "app_name" with
    | .attributeError n => (.attributeError n, s)
    | .ok _ => (.ok (), { handlers := s.handlers ++ [fileHandler] })

/-- Lines 105–112: `_configure_console_handler` registers the console
handler on the global logger. -/
def configureConsoleHandler (s : LoguruState) : PyResult Unit × LoguruState :=
  (.ok (), { handlers := s.handlers ++ [consoleHandler] })

/-- Lines 67–81: `__init__`.  `self.logger = logger` binds the instance
attribute `logger` to the process-global loguru logger;
`self.logger.remove()` removes every registered handler; then the three
setup methods run in order, a raised `AttributeError` propagating to the
caller with the global state as the constructor left it. -/
def loggerWrapperInit (s : LoguruState) : PyResult Unit × LoguruState :=
  let instanceAttrs : List String := ["logger"]
  let s1 : LoguruState := { handlers := [] }
  match ensureLogsDirectory instanceAttrs with
  | .attributeError n => (.attributeError n, s1)
  | .ok _ =>
    match configureFileHandler instanceAttrs s1 with
    | (.attributeError n, s2) => (.attributeError n, s2)
    | (.ok _, s2) => configureConsoleHandler s2

/-- Loguru's import-time default: the global logger starts with one
handler writing to stderr (line 30 imports it). -/
def importTimeState : LoguruState :=
  { handlers := [{ sink := "sys.stderr", level := "DEBUG" }] }

/-- Line 120: the module-level `logger = LoggerWrapper()` executed at
import. -/
def moduleImport : PyResult Unit × LoguruState := loggerWrapperInit importTimeState

/-- Modelled from the spec: the named severity levels of the underlying
capability in increasing order (`debug < info < warning < error <
critical`), with loguru's standard numeric severities. -/
def levelNo (name : String) : Option Nat :=
  if name = "TRACE" then some 5
  else if name = "DEBUG" then some 10
  else if name = "INFO" then some 20
  else if name = "SUCCESS" then some 25
  else if name = "WARNING" then some 30
  else if name = "ERROR" then some 40
  else if name = "CRITICAL" then some 50
  else none

/-- Wall-clock timestamp with millisecond precision. -/
structure Timestamp where
  year : Nat
  month : Nat
  day : Nat
  hour : Nat
  minute : Nat
  second : Nat
  millis : Nat
  deriving DecidableEq

/-- One log record: the fields the two format templates consume, plus the
numeric severity its level name stands for. -/
structure LogRecord where
  time : Timestamp
  levelName : String
  severity : Nat
  modName : String
  funcName : String
  line : Nat
  message : String
  deriving DecidableEq

/-- Fixed-width zero-padded decimal digits of `n`, most significant
first: the rendering of the `YYYY`, `MM`, `DD`, `HH`, `mm`, `ss` and
`SSS` fields of the templates. -/
def natDigits : Nat → Nat → List Char
  | 0, _ => []
  | w + 1, n => Nat.digitChar (n / 10 ^ w) :: natDigits w (n % 10 ^ w)

/-- Zero-padded fixed-width decimal as a string. -/
def zeroPad (w n : Nat) : String := String.mk (natDigits w n)

/-- Rendering of the date pattern `YYYY-MM-DD`, as characters. -/
def fmtDateChars (t : Timestamp) : List Char :=
  natDigits 4 t.year ++ '-' :: (natDigits 2 t.month ++ '-' :: natDigits 2 t.day)

/-- Rendering of the date pattern `YYYY-MM-DD`. -/
def fmtDate (t : Timestamp) : String := String.mk (fmtDateChars t)

/-- Rendering of the time pattern `YYYY-MM-DD HH:mm:ss.SSS`: millisecond
precision, the `.SSS` field. -/
def fmtTimestampMs (t : Timestamp) : String :=
  fmtDate t ++ " " ++ zeroPad 2 t.hour ++ ":" ++ zeroPad 2 t.minute ++ ":" ++
    zeroPad 2 t.second ++ "." ++ zeroPad 3 t.millis

/-- One token of a loguru format template. -/
inductive FmtTok where
  | lit (s : String)
  | timeTok (pat : String)
  | alignLeft (field : String) (width : Nat)
  | alignRight (field : String) (width : Nat)
  | plain (field : String)
  deriving DecidableEq

/-- The template text a token stands for (braces as characters). -/
def tokText : FmtTok → String
  | .lit s => s
  | .timeTok p => "\x7btime:" ++ p ++ "\x7d"
  | .alignLeft f w => "\x7b" ++ f ++ ": <" ++ Nat.repr w ++ "\x7d"
  | .alignRight f w => "\x7b" ++ f ++ ": >" ++ Nat.repr w ++ "\x7d"
  | .plain f => "\x7b" ++ f ++ "\x7d"

/-- Token reading of `FILE_FORMAT`; the claim theorem for the file record
format proves that its token texts concatenate back to the source string
exactly. -/
def fileFormatToks : List FmtTok :=
  [.timeTok "YYYY-MM-DD HH:mm:ss.SSS", .lit " | ", .alignLeft "level" 8,
   .lit " | ", .alignLeft "name" 35, .lit " | ", .alignLeft "function" 20,
   .lit " | ", .alignRight "line" 4, .lit " | ", .plain "message"]

/-- A run of `n` spaces. -/
def spacesOf (n : Nat) : String := String.mk (List.replicate n ' ')

/-- Left-aligned padding to `width` (Python format spec `<`): the content,
then spaces; content longer than `width` is not truncated. -/
def alignLeftPad (width : Nat) (s : String) : String :=
  s ++ spacesOf (width - s.length)

/-- Right-aligned padding to `width` (Python format spec `>`): spaces,
then the content. -/
def alignRightPad (width : Nat) (s : String) : String :=
  spacesOf (width - s.length) ++ s

/-- The record field a template field name stands for, as text. -/
def fieldStr (r : LogRecord) : String → String
  | "level" => r.levelName
  | "name" => r.modName
  | "function" => r.funcName
  | "line" => Nat.repr r.line
  | "message" => r.message
  | _ => ""

/-- Modelled from the spec: rendering of one template token for a record
(the two time patterns the source uses; Python alignment semantics). -/
def renderTok (r : LogRecord) : FmtTok → String
  | .lit s => s
  | .timeTok p =>
    if p = "YYYY-MM-DD HH:mm:ss.SSS" then fmtTimestampMs r.time
    else if p = "YYYY-MM-DD" then fmtDate r.time
    else ""
  | .alignLeft f w => alignLeftPad w (fieldStr r f)
  | .alignRight f w => alignRightPad w (fieldStr r f)
  | .plain f => fieldStr r f

/-- Rendering of a whole template for a record. -/
def renderFmt (toks : List FmtTok) (r : LogRecord) : String :=
  String.join (toks.map (renderTok r))

/-- Modelled from the spec: for each emission the capability iterates the
registered sinks, skips any sink whose threshold exceeds the record's
severity, and dispatches to the remainder. -/
def sinkAccepts (threshold severity : Nat) : Bool := decide (threshold ≤ severity)

/-- Numeric threshold of the file sink as configured (level `"DEBUG"`). -/
def fileThreshold : Nat := (levelNo fileSinkArgs.level).getD 0

/-- Numeric threshold of the console sink as configured (level `"INFO"`). -/
def consoleThreshold : Nat := (levelNo consoleSinkArgs.level).getD 0

/-- The file sink's output for an emitted record: the record appears
exactly when its severity meets the sink's threshold. -/
def fileSinkOutput (r : LogRecord) : Option LogRecord :=
  if sinkAccepts fileThreshold r.severity then some r else none

/-- The console sink's output for an emitted record. -/
def consoleSinkOutput (r : LogRecord) : Option LogRecord :=
  if sinkAccepts consoleThreshold r.severity then some r else none

/-- Line 89: the file sink path, an f-string embedding `self.app_name`
and, for loguru, the time token `YYYY-MM-DD` (the doubled braces of the
f-string produce literal braces). -/
def fileSinkPath (logsDir appName : String) : String :=
  logsDir ++ "/" ++ appName ++ "_" ++ "\x7btime:YYYY-MM-DD\x7d" ++ ".log"

/-- Modelled from the spec: the dated file name the capability derives
from the sink path, the `time` token rendered for the file's date. -/
def logFileName (appName : String) (t : Timestamp) : String :=
  appName ++ "_" ++ fmtDate t ++ ".log"

/-- Chronological order on the date part of a timestamp. -/
def dateLt (t1 t2 : Timestamp) : Prop :=
  t1.year < t2.year ∨
    (t1.year = t2.year ∧
      (t1.month < t2.month ∨ (t1.month = t2.month ∧ t1.day < t2.day)))

instance (t1 t2 : Timestamp) : Decidable (dateLt t1 t2) := by
  unfold dateLt
  exact inferInstance

/-- Numeric value of a decimal digit character. -/
def digitVal (c : Char) : Option Nat :=
  if '0' ≤ c ∧ c ≤ '9' then some (c.toNat - 48) else none

/-- Minutes after midnight denoted by an `"HH:MM"` rotation string. -/
def parseHHMM (s : String) : Option Nat :=
  match s.data with
  | [h1, h2, c, m1, m2] =>
    match digitVal h1, digitVal h2, digitVal m1, digitVal m2 with
    | some a, some b, some x, some y =>
      if c = ':' ∧ 10 * a + b < 24 ∧ 10 * x + y < 60 then
        some ((10 * a + b) * 60 + (10 * x + y))
      else none
    | _, _, _, _ => none
  | _ => none

/-- Number of days denoted by a `"<n> days"` retention string. -/
def parseDaysSpec (s : String) : Option Nat :=
  let ds := s.data.takeWhile fun c => decide ('0' ≤ c) && decide (c ≤ '9')
  let rest := s.data.dropWhile fun c => decide ('0' ≤ c) && decide (c ≤ '9')
  if ds ≠ [] ∧ rest = [' ', 'd', 'a', 'y', 's'] then
    some (ds.foldl (fun acc c => 10 * acc + (c.toNat - 48)) 0)
  else none

/-- State of the file sink's rotation engine: the index of the day whose
file is the active one.  Modelled from the spec: rollover is the lazy
check performed on each write. -/
structure RotationState where
  activeDay : Nat
  deriving DecidableEq

/-- Modelled from the spec: on a write during day `today`, roll over
exactly when the configured boundary (midnight, so a day-index increase)
has been crossed since the active file was opened; a clock that appears to
regress never rolls over into the past. -/
def rolloverOnWrite (today : Nat) (st : RotationState) : RotationState :=
  if st.activeDay < today then { activeDay := today } else st

/-- On-disk state of one closed log file's contents: still the plain file,
or a single zip archive holding its bytes (the plain original removed). -/
inductive ArchState where
  | stored (contents : List Nat)
  | archived (contents : List Nat)
  deriving DecidableEq

/-- The bytes a file's on-disk state carries. -/
def ArchState.contents : ArchState → List Nat
  | .stored b => b
  | .archived b => b

/-- Whether the file has been turned into its archive. -/
def ArchState.isArchived : ArchState → Bool
  | .stored _ => false
  | .archived _ => true

/-- One file in the log directory: its age in days since its rotation
boundary, whether it is the currently active file, and its contents. -/
structure DiskFile where
  age : Nat
  isActive : Bool
  state : ArchState
  deriving DecidableEq

/-- Modelled from the spec: one compression sweep's action on one file.
The active file is never touched; a file whose archive already exists is
skipped; a closed plain file at least `delay` days old is compressed into
a single zip archive holding its bytes, the plain original removed. -/
def compressOne (delay : Nat) (f : DiskFile) : DiskFile :=
  if f.isActive then f
  else
    match f.state with
    | .archived _ => f
    | .stored b => if delay ≤ f.age then { f with state := .archived b } else f

/-- Modelled from the spec: a compression sweep over the log directory. -/
def compressionSweep (delay : Nat) (files : List DiskFile) : List DiskFile :=
  files.map (compressOne delay)

/-- Two strings with the same character data are equal. -/
theorem strExt {s t : String} (h : s.data = t.data) : s = t := by
  cases s
  cases t
  exact congrArg String.mk h

/-- Appending strings appends their character data. -/
theorem strDataAppend (s t : String) : (s ++ t).data = s.data ++ t.data := rfl

/-- C1: every construction of `LoggerWrapper` — the module-level instance
created at import included — reaches `_ensure_logs_directory`, whose
lookup of `self.logs_dir` misses the instance and class attributes, falls
through to `__getattr__`, is forwarded to the wrapped loguru logger,
which has no such attribute either, and so raises `AttributeError` while
the global logger still has no handler configured (the constructor's
`remove()` has run, neither `add` has). -/
theorem construction_raises_before_any_handler (s : LoguruState) :
    loggerWrapperInit s = (.attributeError "logs_dir", { handlers := [] }) ∧
    moduleImport = (.attributeError "logs_dir", { handlers := [] }) ∧
    getattrOn ["logger"] "logs_dir" = .attributeError "logs_dir" ∧
    "logs_dir" ∉ classAttrs ∧ "logs_dir" ∉ loguruAttrs :=
  ⟨rfl, rfl, rfl, by decide, by decide⟩

/-- C10: every instance wraps the one process-global loguru logger, whose
state the constructor rewrites: it first removes all registered handlers,
so the state it leaves (empty, since it then raises) is independent of
whatever handlers an earlier instance or loguru itself had installed, and
a second construction acts on — and again clears — the same global state;
no construction returns successfully, so no instance ever holds sinks of
its own. -/
theorem one_global_logger_shared (s s' : LoguruState) :
    (loggerWrapperInit s).2.handlers = [] ∧
    (loggerWrapperInit s).2 = (loggerWrapperInit s').2 ∧
    (loggerWrapperInit s).1 = .attributeError "logs_dir" ∧
    loggerWrapperInit (loggerWrapperInit s).2 = loggerWrapperInit s' :=
  ⟨rfl, rfl, rfl, rfl⟩

/-- C6: evaluation of the code at the failing input.  The setup step
`_ensure_logs_directory` never reaches `mkdir`: its lookup of
`self.logs_dir` raises `AttributeError` on every call, in particular
during the module-level construction, whatever the state of the
filesystem. -/
theorem ensure_logs_directory_raises :
    ensureLogsDirectory ["logger"] = .attributeError "logs_dir" ∧
    moduleImport.1 = .attributeError "logs_dir" :=
  ⟨rfl, rfl⟩

/-- C7 counterexample: `logs_dir` is an attribute name defined neither on
the instance nor on the class, and its access on the Facade does not
succeed by delegation — it raises `AttributeError`. -/
theorem proxy_contract_fails_on_logs_dir :
    getattrOn ["logger"] "logs_dir" = .attributeError "logs_dir" ∧
    "logs_dir" ∉ (["logger"] : List String) ∧ "logs_dir" ∉ classAttrs := by
  decide

/-- C7 amended: an attribute name not defined on the Facade is delegated
to the wrapped loguru logger, and the access succeeds with the loguru
attribute whenever the loguru logger has it — each of
debug/info/warning/error/critical in particular is available this way;
a name the loguru logger also lacks raises `AttributeError` instead. -/
theorem proxy_delegates_to_loguru (instanceAttrs : List String) (name : String)
    (hi : name ∉ instanceAttrs) (hc : name ∉ classAttrs) (hl : name ∈ loguruAttrs) :
    getattrOn instanceAttrs name = .ok (.delegated name) ∧
    ∀ m ∈ ["debug", "info", "warning", "error", "critical"], m ∈ loguruAttrs := by
  refine ⟨?_, by decide⟩
  simp [getattrOn, hi, hc, hl]

/-- C7 witness: the delegation theorem applied to the method `debug`. -/
theorem proxy_delegates_to_loguru_witness :
    getattrOn ["logger"] "debug" = .ok (.delegated "debug") :=
  (proxy_delegates_to_loguru ["logger"] "debug" (by decide) (by decide) (by decide)).1

/-- C4: the defaults the source configures are exactly file threshold
`DEBUG`, console threshold `INFO`, retention 45 days, rotation boundary
midnight (`"00:00"`, zero minutes after midnight), compression delay 7
days, and the write queue enabled. -/
theorem default_configuration_values :
    fileSinkArgs.level = "DEBUG" ∧ consoleSinkArgs.level = "INFO" ∧
    fileSinkArgs.retention = DEFAULT_RETENTION ∧
    parseDaysSpec fileSinkArgs.retention = some 45 ∧
    fileSinkArgs.rotation = DEFAULT_ROTATION ∧
    parseHHMM fileSinkArgs.rotation = some 0 ∧
    fileSinkArgs.compression_delay = 7 ∧
    fileSinkArgs.enqueue = true := by
  decide

/-- C2: for every emitted record, the file sink (threshold `DEBUG`, the
numeric severity 10) and the console sink (threshold `INFO`, numeric 20)
each contain the record exactly when its severity is at or above the
sink's threshold, and never when it is below. -/
theorem severity_thresholds_filter_records (r : LogRecord) :
    levelNo DEFAULT_LEVEL_FILE = some fileThreshold ∧
    levelNo DEFAULT_LEVEL_CONSOLE = some consoleThreshold ∧
    (r.severity < fileThreshold → fileSinkOutput r = none) ∧
    (fileThreshold ≤ r.severity → fileSinkOutput r = some r) ∧
    (r.severity < consoleThreshold → consoleSinkOutput r = none) ∧
    (consoleThreshold ≤ r.severity → consoleSinkOutput r = some r) := by
  have hf : fileThreshold = 10 := by decide
  have hc : consoleThreshold = 20 := by decide
  refine ⟨by decide, by decide, fun h => ?_, fun h => ?_, fun h => ?_, fun h => ?_⟩ <;>
    simp [fileSinkOutput, consoleSinkOutput, sinkAccepts, hf, hc] <;> omega

/-- C9: the configured rotation boundary `"00:00"` is midnight (zero
minutes after midnight), and the modelled lazy rollover check rolls over
at the first write after the boundary has been crossed — never on a write
before the boundary is crossed, and never into the past. -/
theorem rotation_at_configured_midnight_boundary :
    parseHHMM DEFAULT_ROTATION = some 0 ∧
    fileSinkArgs.rotation = DEFAULT_ROTATION ∧
    (∀ today st, st.activeDay < today →
      rolloverOnWrite today st = { activeDay := today }) ∧
    (∀ today st, ¬ st.activeDay < today → rolloverOnWrite today st = st) := by
  refine ⟨by decide, rfl, fun today st h => ?_, fun today st h => ?_⟩ <;>
    simp [rolloverOnWrite, h]

/-- C8: a closed (non-active) file whose age since its rotation boundary
is at least the configured delay is compressed by one sweep into a single
archive holding exactly its bytes; the step is idempotent (a file whose
archive already exists is left untouched by a further sweep), and the
sweep applies the step to every file of the directory. -/
theorem compression_after_delay (delay : Nat) (f : DiskFile)
    (hact : f.isActive = false) (hage : delay ≤ f.age) :
    ((compressOne delay f).state).isArchived = true ∧
    ((compressOne delay f).state).contents = f.state.contents ∧
    compressOne delay (compressOne delay f) = compressOne delay f ∧
    ∀ files : List DiskFile, f ∈ files →
      compressOne delay f ∈ compressionSweep delay files := by
  rcases f with ⟨age, active, st⟩
  cases active
  · cases st with
    | archived b =>
      exact ⟨rfl, rfl, rfl, fun files hf => List.mem_map_of_mem _ hf⟩
    | stored b =>
      simp only [DiskFile.age] at hage
      have h1 : compressOne delay ⟨age, false, .stored b⟩ =
          ⟨age, false, .archived b⟩ := by
        simp [compressOne, hage]
      refine ⟨?_, ?_, ?_, fun files hf => List.mem_map_of_mem _ hf⟩
      · rw [h1]
        rfl
      · rw [h1]
        rfl
      · rw [h1]
        rfl
  · exact absurd hact (by simp)

/-- C8 witness: the compression theorem applied to a closed eight-day-old
plain file with the default seven-day delay. -/
theorem compression_after_delay_witness :
    ((compressOne 7 ⟨8, false, .stored [1, 2]⟩).state).isArchived = true :=
  (compression_after_delay 7 ⟨8, false, .stored [1, 2]⟩ rfl (by decide)).1

/-- C3: the token reading of `FILE_FORMAT` concatenates back to the
source template character for character, and the rendering of the file
template for any record is the millisecond-precision timestamp, the level
padded to 8, the source (module) name padded to 35, the function name
padded to 20, the line number padded to 4, and the message, separated by
the string consisting of a space, a bar and a space. -/
theorem file_record_format (r : LogRecord) :
    String.join (fileFormatToks.map tokText) = FILE_FORMAT ∧
    renderFmt fileFormatToks r =
      fmtTimestampMs r.time ++ " | " ++ alignLeftPad 8 r.levelName ++ " | " ++
        alignLeftPad 35 r.modName ++ " | " ++ alignLeftPad 20 r.funcName ++ " | " ++
        alignRightPad 4 (Nat.repr r.line) ++ " | " ++ r.message := by
  constructor
  · rfl
  · apply strExt
    simp [renderFmt, fileFormatToks, renderTok, fieldStr, String.join,
      strDataAppend, List.append_assoc]

/-- A decimal digit strictly below another maps to a strictly smaller
digit character. -/
theorem digitChar_lt_digitChar : ∀ d1 < 10, ∀ d2 < 10, d1 < d2 →
    Nat.digitChar d1 < Nat.digitChar d2 := by
  decide

/-- Lexicographic comparison is preserved under a common prefix. -/
theorem lex_append_left (p : List Char) {u v : List Char}
    (h : List.Lex (· < ·) u v) : List.Lex (· < ·) (p ++ u) (p ++ v) := by
  induction p with
  | nil => exact h
  | cons c p ih => exact List.Lex.cons ih

/-- Fixed-width zero-padded digit strings compare lexicographically as
the numbers they denote, whatever follows them. -/
theorem natDigits_lex (w : Nat) : ∀ n1 n2 : Nat, n1 < 10 ^ w → n2 < 10 ^ w →
    n1 < n2 → ∀ t1 t2 : List Char,
    List.Lex (· < ·) (natDigits w n1 ++ t1) (natDigits w n2 ++ t2) := by
  induction w with
  | zero =>
    intro n1 n2 h1 h2 h _ _
    omega
  | succ w ih =>
    intro n1 n2 h1 h2 h t1 t2
    have hp : 0 < 10 ^ w := pow_pos (by omega) w
    have e : 10 ^ (w + 1) = 10 ^ w * 10 := pow_succ 10 w
    rw [e] at h1 h2
    have hd1 : n1 / 10 ^ w < 10 := (Nat.div_lt_iff_lt_mul hp).mpr (by omega)
    have hd2 : n2 / 10 ^ w < 10 := (Nat.div_lt_iff_lt_mul hp).mpr (by omega)
    have hle : n1 / 10 ^ w ≤ n2 / 10 ^ w := Nat.div_le_div_right (Nat.le_of_lt h)
    have hm1 : n1 % 10 ^ w < 10 ^ w := Nat.mod_lt _ hp
    have hm2 : n2 % 10 ^ w < 10 ^ w := Nat.mod_lt _ hp
    simp only [natDigits, List.cons_append]
    rcases Nat.lt_or_ge (n1 / 10 ^ w) (n2 / 10 ^ w) with hlt | hge
    · exact List.Lex.rel (digitChar_lt_digitChar _ hd1 _ hd2 hlt)
    · have heq : n1 / 10 ^ w = n2 / 10 ^ w := Nat.le_antisymm hle hge
      have hq1 := Nat.div_add_mod n1 (10 ^ w)
      have hq2 := Nat.div_add_mod n2 (10 ^ w)
      rw [heq] at hq1
      rw [heq]
      exact List.Lex.cons (ih (n1 % 10 ^ w) (n2 % 10 ^ w) hm1 hm2 (by omega) t1 t2)

/-- Date rendering is strictly monotone from chronological order to the
lexicographic order on character lists, whatever follows the date. -/
theorem fmtDateChars_lex {t1 t2 : Timestamp}
    (h1y : t1.year < 10 ^ 4) (h1m : t1.month < 10 ^ 2) (h1d : t1.day < 10 ^ 2)
    (h2y : t2.year < 10 ^ 4) (h2m : t2.month < 10 ^ 2) (h2d : t2.day < 10 ^ 2)
    (h : dateLt t1 t2) (u v : List Char) :
    List.Lex (· < ·) (fmtDateChars t1 ++ u) (fmtDateChars t2 ++ v) := by
  rcases h with hy | ⟨hy, hm | ⟨hm, hd⟩⟩
  · simp only [fmtDateChars, List.append_assoc, List.cons_append]
    exact natDigits_lex 4 _ _ h1y h2y hy _ _
  · simp only [fmtDateChars, hy, List.append_assoc, List.cons_append]
    refine lex_append_left _ (List.Lex.cons ?_)
    exact natDigits_lex 2 _ _ h1m h2m hm _ _
  · simp only [fmtDateChars, hy, hm, List.append_assoc, List.cons_append]
    refine lex_append_left _ (List.Lex.cons (lex_append_left _ (List.Lex.cons ?_)))
    exact natDigits_lex 2 _ _ h1d h2d hd _ _

/-- Chronologically earlier dates give lexicographically smaller log file
names (the `<app_name>_<YYYY-MM-DD>.log` shape shares the prefix and the
zero-padded date decides the comparison). -/
theorem logFileName_lt_of_dateLt (a : String) {t1 t2 : Timestamp}
    (h1y : t1.year < 10 ^ 4) (h1m : t1.month < 10 ^ 2) (h1d : t1.day < 10 ^ 2)
    (h2y : t2.year < 10 ^ 4) (h2m : t2.month < 10 ^ 2) (h2d : t2.day < 10 ^ 2)
    (h : dateLt t1 t2) : logFileName a t1 < logFileName a t2 := by
  have e1 : (logFileName a t1).data =
      a.data ++ ('_' :: (fmtDateChars t1 ++ ".log".data)) := by
    simp [logFileName, strDataAppend, fmtDate, List.append_assoc]
  have e2 : (logFileName a t2).data =
      a.data ++ ('_' :: (fmtDateChars t2 ++ ".log".data)) := by
    simp [logFileName, strDataAppend, fmtDate, List.append_assoc]
  have lex : List.Lex (· < ·) (logFileName a t1).data (logFileName a t2).data := by
    rw [e1, e2]
    exact lex_append_left _
      (List.Lex.cons (fmtDateChars_lex h1y h1m h1d h2y h2m h2d h _ _))
  rw [String.lt_iff_toList_lt]
  exact lex

/-- C5: with the app name fixed (all files of the sink share it) and the
date fields in their rendered ranges, the chronological order of the
embedded dates coincides exactly with the lexicographic order of the
`<app_name>_<YYYY-MM-DD>.log` file names, so sorting the names lexically
yields chronological order. -/
theorem log_file_names_chronological (a : String) (t1 t2 : Timestamp)
    (h1y : t1.year < 10 ^ 4) (h1m : t1.month < 10 ^ 2) (h1d : t1.day < 10 ^ 2)
    (h2y : t2.year < 10 ^ 4) (h2m : t2.month < 10 ^ 2) (h2d : t2.day < 10 ^ 2) :
    dateLt t1 t2 ↔ logFileName a t1 < logFileName a t2 := by
  constructor
  · exact logFileName_lt_of_dateLt a h1y h1m h1d h2y h2m h2d
  · intro h
    by_contra hnot
    have tri : dateLt t2 t1 ∨
        (t1.year = t2.year ∧ t1.month = t2.month ∧ t1.day = t2.day) := by
      unfold dateLt at hnot ⊢
      omega
    rcases tri with h2 | ⟨ey, em, ed⟩
    · exact absurd h
        (lt_asymm (logFileName_lt_of_dateLt a h2y h2m h2d h1y h1m h1d h2))
    · have e : logFileName a t1 = logFileName a t2 := by
        unfold logFileName fmtDate fmtDateChars
        rw [ey, em, ed]
      rw [e] at h
      exact lt_irrefl _ h

/-- C5 witness: the chronological-order theorem applied to two concrete
dated file names. -/
theorem log_file_names_chronological_witness :
    logFileName "knowledge_base" ⟨2025, 3, 9, 0, 0, 0, 0⟩ <
      logFileName "knowledge_base" ⟨2025, 3, 10, 0, 0, 0, 0⟩ :=
  (log_file_names_chronological "knowledge_base" ⟨2025, 3, 9, 0, 0, 0, 0⟩
      ⟨2025, 3, 10, 0, 0, 0, 0⟩ (by decide) (by decide) (by decide) (by decide)
      (by decide) (by decide)).mp (by decide)

end LoggerWrapper
